import Mathlib

/-!
Shallow embedding of `src/com_vectionvr_osvr_motionPlatformDevicePlugin.cpp`
(OSVR-MotionPlatformStub).  Pure data is embedded directly; the effectful
calls into the host ABI (`osvrDeviceCreateInitOptions`, `osvrDeviceTrackerSendPose`,
`boost::this_thread::sleep`, ...) are embedded as explicit effect traces.
Floating point arithmetic inside `updatePoseOrientation` is read over the
reals, as the specification does.
-/

/-- Return codes of the OSVR plugin ABI; the source only ever mentions
`OSVR_RETURN_SUCCESS`, but the type has a failure value too. -/
inductive OSVR_ReturnCode
| success
| failure
deriving DecidableEq, Repr

/-- A 3-vector, the `translation` part of `OSVR_PoseState`. -/
structure OSVR_Vec3 where
  x : ℝ
  y : ℝ
  z : ℝ

/-- A quaternion as stored in `OSVR_PoseState.rotation`, with the four
components the `osvrQuatSetX/Y/Z/W` accessors write. -/
structure OSVR_Quaternion where
  x : ℝ
  y : ℝ
  z : ℝ
  w : ℝ

/-- The pose reported to the host: translation plus rotation. -/
structure OSVR_PoseState where
  translation : OSVR_Vec3
  rotation : OSVR_Quaternion

/-- The pose written by `osvrPose3SetIdentity`: origin translation and the
identity quaternion (x = y = z = 0, w = 1). -/
def osvrPose3SetIdentity : OSVR_PoseState :=
  { translation := ⟨0, 0, 0⟩, rotation := ⟨0, 0, 0, 1⟩ }

/-- Embedding of `TrackerSyncDevice::updatePoseOrientation` (source lines
98-119): converts the three Euler angles from degrees to radians, halves
them, and writes the four quaternion components from the half-angle
sine/cosine products.  Only `pose.rotation` is written. -/
noncomputable def updatePoseOrientation (pose : OSVR_PoseState) (pitch yaw roll : ℝ) :
    OSVR_PoseState :=
  let p := pitch * (Real.pi / 180) / 2
  let y := yaw * (Real.pi / 180) / 2
  let r := roll * (Real.pi / 180) / 2
  let sinp := Real.sin p
  let siny := Real.sin y
  let sinr := Real.sin r
  let cosp := Real.cos p
  let cosy := Real.cos y
  let cosr := Real.cos r
  { pose with
    rotation :=
      { x := sinr * cosp * cosy - cosr * sinp * siny
        y := cosr * sinp * cosy + sinr * cosp * siny
        z := cosr * cosp * siny - sinr * sinp * cosy
        w := cosr * cosp * cosy + sinr * sinp * siny } }

/-- Squared Euclidean norm of a quaternion. -/
def OSVR_Quaternion.normSq (q : OSVR_Quaternion) : ℝ :=
  q.x ^ 2 + q.y ^ 2 + q.z ^ 2 + q.w ^ 2

/-- Auxiliary algebraic identity behind the unit-norm property: the sum of
squares of the half-angle product formula factors into the three Pythagorean
sums. -/
lemma quat_normSq_factor (sr cr sp cp sy cy : ℝ)
    (hr : sr ^ 2 + cr ^ 2 = 1) (hp : sp ^ 2 + cp ^ 2 = 1)
    (hy : sy ^ 2 + cy ^ 2 = 1) :
    (sr * cp * cy - cr * sp * sy) ^ 2 + (cr * sp * cy + sr * cp * sy) ^ 2 +
      (cr * cp * sy - sr * sp * cy) ^ 2 + (cr * cp * cy + sr * sp * sy) ^ 2 = 1 := by
  linear_combination ((sp ^ 2 + cp ^ 2) * (sy ^ 2 + cy ^ 2)) * hr +
    (sy ^ 2 + cy ^ 2) * hp + hy

/-- Word size mask of `boost::mt19937` (a 32-bit Mersenne twister). -/
def mtWordMod : Nat := 2 ^ 32

/-- State of `boost::mt19937` (`RNGType` in the source): 624 32-bit words
plus the position of the next untempered word. -/
structure RNGType where
  state : Array Nat
  index : Nat
deriving DecidableEq, Repr

/-- Seeding recurrence of MT19937:
`x_i = 1812433253 * (x_(i-1) xor (x_(i-1) >> 30)) + i  (mod 2^32)`. -/
def mtSeedStep (prev i : Nat) : Nat :=
  (1812433253 * (Nat.xor prev (prev >>> 30)) + i) % mtWordMod

/-- Builds words 1..623 of the seeded state from word 0. -/
def mtSeedTail : Nat → Nat → Nat → List Nat
  | 0, _, _ => []
  | k + 1, i, prev =>
    let next := mtSeedStep prev i
    next :: mtSeedTail k (i + 1) next

/-- `boost::mt19937` construction from a seed; the index 624 forces a twist
before the first output, as in the reference implementation. -/
def mtSeed (seed : Nat) : RNGType :=
  let s0 := seed % mtWordMod
  ⟨(s0 :: mtSeedTail 623 1 s0).toArray, 624⟩

/-- The default-constructed `boost::mt19937` uses seed 5489. -/
def mtDefault : RNGType := mtSeed 5489

/-- One in-place step of the MT19937 twist at position `i` (indices taken
mod 624, reading words already rewritten by earlier steps, as the in-place
loop of the reference implementation does). -/
def mtTwistStep (mt : Array Nat) (i : Nat) : Array Nat :=
  let x := (mt.getD (i % 624) 0 &&& 0x80000000) +
           (mt.getD ((i + 1) % 624) 0 &&& 0x7fffffff)
  let xa := Nat.xor (mt.getD ((i + 397) % 624) 0) (x >>> 1)
  let v := if x % 2 = 1 then Nat.xor xa 0x9908b0df else xa
  mt.set! (i % 624) v

/-- Full MT19937 twist: rewrite all 624 words in order. -/
def mtTwist (mt : Array Nat) : Array Nat :=
  (List.range 624).foldl mtTwistStep mt

/-- MT19937 output tempering. -/
def mtTemper (y0 : Nat) : Nat :=
  let y1 := Nat.xor y0 (y0 >>> 11)
  let y2 := Nat.xor y1 ((y1 <<< 7) &&& 0x9d2c5680)
  let y3 := Nat.xor y2 ((y2 <<< 15) &&& 0xefc60000)
  Nat.xor y3 (y3 >>> 18)

/-- Draw one raw 32-bit word from the generator, twisting when the block of
624 is exhausted. -/
def mtNext (g : RNGType) : Nat × RNGType :=
  let g' := if 624 ≤ g.index then RNGType.mk (mtTwist g.state) 0 else g
  (mtTemper (g'.state.getD g'.index 0), ⟨g'.state, g'.index + 1⟩)

/-- Modelled contract of the external `boost::uniform_int<int>(lo, hi)`
distribution applied through `boost::variate_generator`: it consumes raw
words from the generator and returns an integer in the closed range
`[lo, hi]`.  The library's rejection sampling is external to this
repository; its contract is modelled by reducing one raw draw modulo the
range size. -/
def uniformIntDraw (lo hi : ℤ) (g : RNGType) : ℤ × RNGType :=
  let rg := mtNext g
  (lo + Int.ofNat (rg.1 % (hi - lo + 1).toNat), rg.2)

/-- C-style float-to-int conversion (truncation toward zero), used when the
float bounds of `getRandomFloat` are narrowed to `int` by the
`boost::uniform_int<int>` constructor. -/
def cTruncToInt (q : ℚ) : ℤ := if 0 ≤ q then ⌊q⌋ else ⌈q⌉

/-- Embedding of `TrackerSyncDevice::getRandomFloat` (source lines 90-94):
despite the name and the float parameters, it builds
`boost::uniform_int<int> u(min, max)` — truncating both bounds to `int` —
and returns the drawn `int`. -/
def getRandomFloat (lo hi : ℚ) (g : RNGType) : ℤ × RNGType :=
  uniformIntDraw (cTruncToInt lo) (cTruncToInt hi) g

/-- Observable effects performed by `TrackerSyncDevice::update`, in program
order. -/
inductive Effect
  | setIdentity
  | sendPose (p : OSVR_PoseState)
  | sleepMs (ms : Nat)

/-- Whether an effect is a blocking sleep. -/
def Effect.isSleep : Effect → Bool
  | .sleepMs _ => true
  | _ => false

/-- Mutable state of a `TrackerSyncDevice`: the `rng` member and the `pose`
member (the OSVR handles `m_dev`, `m_tracker` carry no modelled state). -/
structure TrackerSyncDevice where
  rng : RNGType
  pose : OSVR_PoseState

/-- Host ABI calls issued by the `TrackerSyncDevice` constructor. -/
inductive AbiCall
  | createInitOptions
  | trackerConfigure
  | initSync (name : String)
  | sendJsonDescriptor
  | registerUpdateCallback
deriving DecidableEq, Repr

/-- Embedding of the `TrackerSyncDevice` constructor (source lines 51-62):
it issues the five host ABI calls in program order and leaves the `pose`
member untouched (uninitialized, modelled by the arbitrary `garbagePose`);
the `rng` member is default-constructed. -/
noncomputable def mkTrackerSyncDevice (garbagePose : OSVR_PoseState) :
    TrackerSyncDevice × List AbiCall :=
  (⟨mtDefault, garbagePose⟩,
   [AbiCall.createInitOptions, AbiCall.trackerConfigure,
    AbiCall.initSync "SyncMotionPlatformDevice", AbiCall.sendJsonDescriptor,
    AbiCall.registerUpdateCallback])

/-- Result of one `TrackerSyncDevice::update` tick: the device state after
the tick, the pose handed to `osvrDeviceTrackerSendPose`, the three Euler
angles passed to `updatePoseOrientation`, the effect trace and the return
code. -/
structure UpdateResult where
  device : TrackerSyncDevice
  sent : OSVR_PoseState
  angles : ℤ × ℤ × ℤ
  effects : List Effect
  ret : OSVR_ReturnCode

/-- Embedding of `TrackerSyncDevice::update` (source lines 64-76): reset
`pose` with `osvrPose3SetIdentity`, draw three random angles in
[-45, 45], overwrite the rotation via `updatePoseOrientation`, send the
pose, sleep 1000 milliseconds and return success.  (C++ leaves the
evaluation order of the three `getRandomFloat` arguments unspecified; the
embedding fixes left-to-right order, which no verified claim depends on.) -/
noncomputable def TrackerSyncDevice.update (d : TrackerSyncDevice) : UpdateResult :=
  let r1 := getRandomFloat (-45) 45 d.rng
  let r2 := getRandomFloat (-45) 45 r1.2
  let r3 := getRandomFloat (-45) 45 r2.2
  let pose1 := updatePoseOrientation osvrPose3SetIdentity
    (r1.1 : ℝ) (r2.1 : ℝ) (r3.1 : ℝ)
  { device := ⟨r3.2, pose1⟩
    sent := pose1
    angles := (r1.1, r2.1, r3.1)
    effects := [Effect.setIdentity, Effect.sendPose pose1, Effect.sleepMs 1000]
    ret := OSVR_ReturnCode.success }

/-- State of a `HardwareDetection` instance: the `m_found` flag. -/
structure HardwareDetection where
  m_found : Bool
deriving DecidableEq, Repr

/-- The `HardwareDetection` constructor (source line 124): `m_found` starts
false. -/
def HardwareDetection.init : HardwareDetection := ⟨false⟩

/-- Result of one invocation of `HardwareDetection::operator()`: the state
after the call, whether a `TrackerSyncDevice` was constructed and registered
for deletion, and the return code. -/
structure DetectResult where
  state : HardwareDetection
  createdDevice : Bool
  ret : OSVR_ReturnCode
deriving DecidableEq, Repr

/-- Embedding of `HardwareDetection::operator()` (source lines 125-136):
when `m_found` is still false, set it and create/register a device; always
return `OSVR_RETURN_SUCCESS`. -/
def HardwareDetection.detect (h : HardwareDetection) : DetectResult :=
  if !h.m_found then
    { state := ⟨true⟩, createdDevice := true, ret := OSVR_ReturnCode.success }
  else
    { state := h, createdDevice := false, ret := OSVR_ReturnCode.success }

/-- State of a fresh `HardwareDetection` instance after `n` invocations of
the detection callback. -/
def detectIter : Nat → HardwareDetection
  | 0 => HardwareDetection.init
  | n + 1 => (detectIter n).detect.state

/-- Embedding of the `OSVR_PLUGIN` entry point (source lines 145-152): it
registers a fresh `HardwareDetection` callback and returns success. -/
def pluginEntryPoint : HardwareDetection × OSVR_ReturnCode :=
  (HardwareDetection.init, OSVR_ReturnCode.success)

/-- C1: for every triple of Euler angles (read over the reals), the
quaternion written into `pose.rotation` by
`TrackerSyncDevice::updatePoseOrientation` has unit norm:
x² + y² + z² + w² = 1. -/
theorem claim_C1_unit_norm (pose : OSVR_PoseState) (pitch yaw roll : ℝ) :
    ((updatePoseOrientation pose pitch yaw roll).rotation).normSq = 1 := by
  unfold updatePoseOrientation OSVR_Quaternion.normSq
  exact quat_normSq_factor _ _ _ _ _ _
    (Real.sin_sq_add_cos_sq _) (Real.sin_sq_add_cos_sq _) (Real.sin_sq_add_cos_sq _)

/-- After any positive number of invocations, the `m_found` flag of a fresh
`HardwareDetection` instance is true. -/
lemma detectIter_succ_found (n : Nat) : detectIter (n + 1) = ⟨true⟩ := by
  induction n with
  | zero => rfl
  | succ k ih =>
      show (detectIter (k + 1)).detect.state = _
      rw [ih]
      rfl

/-- C2: on a single `HardwareDetection` instance the `m_found` flag starts
false, is true after the first invocation and stays true; a
`TrackerSyncDevice` is constructed and registered for deletion on exactly
the first invocation. -/
theorem claim_C2_found_once :
    HardwareDetection.init.m_found = false ∧
    ∀ n : Nat, (detectIter (n + 1)).m_found = true ∧
      (detectIter n).detect.createdDevice = decide (n = 0) := by
  refine ⟨rfl, fun n => ⟨by rw [detectIter_succ_found], ?_⟩⟩
  cases n with
  | zero => rfl
  | succ k =>
      rw [detectIter_succ_found]
      simp [HardwareDetection.detect]

/-- C3: the hardware-detection callback, the device update callback and the
plugin entry point return `OSVR_RETURN_SUCCESS` for every state and input. -/
theorem claim_C3_always_success (h : HardwareDetection) (d : TrackerSyncDevice) :
    h.detect.ret = OSVR_ReturnCode.success ∧
    d.update.ret = OSVR_ReturnCode.success ∧
    pluginEntryPoint.2 = OSVR_ReturnCode.success := by
  refine ⟨?_, rfl, rfl⟩
  unfold HardwareDetection.detect
  by_cases hm : h.m_found <;> simp [hm]

/-- C5: every update tick sends a pose whose translation is the origin set
by `osvrPose3SetIdentity`; `updatePoseOrientation` writes only the
rotation. -/
theorem claim_C5_position_at_origin (d : TrackerSyncDevice) :
    d.update.sent.translation = ⟨0, 0, 0⟩ := rfl

/-- The state and sent pose produced by one update tick depend only on the
starting RNG state, never on the prior `pose` contents. -/
lemma update_congr_of_rng_eq (d1 d2 : TrackerSyncDevice) (h : d1.rng = d2.rng) :
    d1.update.device = d2.update.device ∧ d1.update.sent = d2.update.sent := by
  unfold TrackerSyncDevice.update
  rw [h]
  exact ⟨rfl, rfl⟩

/-- C6: two update calls starting from equal RNG states but arbitrary
different prior pose contents send identical poses. -/
theorem claim_C6_pose_from_rng_only (d1 d2 : TrackerSyncDevice)
    (h : d1.rng = d2.rng) : d1.update.sent = d2.update.sent :=
  (update_congr_of_rng_eq d1 d2 h).2

/-- A concrete device with junk prior pose contents, for the C6 witness. -/
noncomputable def witnessDeviceA : TrackerSyncDevice :=
  ⟨mtDefault, ⟨⟨1, 2, 3⟩, ⟨4, 5, 6, 7⟩⟩⟩

/-- A concrete device with identity prior pose, same RNG state, for the C6
witness. -/
noncomputable def witnessDeviceB : TrackerSyncDevice :=
  ⟨mtDefault, osvrPose3SetIdentity⟩

/-- Witness for C6 at two concrete devices whose pose fields differ but
whose RNG states agree. -/
theorem claim_C6_witness :
    witnessDeviceA.rng = witnessDeviceB.rng ∧
    witnessDeviceA.update.sent = witnessDeviceB.update.sent :=
  ⟨rfl, claim_C6_pose_from_rng_only witnessDeviceA witnessDeviceB rfl⟩

/-- C7: every update tick performs exactly one blocking sleep, of 1000
milliseconds, and it comes after the `osvrDeviceTrackerSendPose` call. -/
theorem claim_C7_one_sleep_after_send (d : TrackerSyncDevice) :
    d.update.effects.filter Effect.isSleep = [Effect.sleepMs 1000] ∧
    d.update.effects.drop 1 =
      [Effect.sendPose d.update.sent, Effect.sleepMs 1000] :=
  ⟨rfl, rfl⟩

/-- C8: the `TrackerSyncDevice` constructor performs the five host ABI
calls exactly once each and in program order, initializing the sync device
token under the name SyncMotionPlatformDevice. -/
theorem claim_C8_ctor_call_order (garbagePose : OSVR_PoseState) :
    (mkTrackerSyncDevice garbagePose).2 =
      [AbiCall.createInitOptions, AbiCall.trackerConfigure,
       AbiCall.initSync "SyncMotionPlatformDevice", AbiCall.sendJsonDescriptor,
       AbiCall.registerUpdateCallback] := rfl

/-- Truncating the float literal -45.0 to `int` gives -45. -/
lemma cTruncToInt_neg45 : cTruncToInt (-45) = -45 := by
  unfold cTruncToInt
  rw [if_neg (by norm_num)]
  rw [show ((-45 : ℚ)) = ((-45 : ℤ) : ℚ) by norm_num]
  exact Int.ceil_intCast _

/-- Truncating the float literal 45.0 to `int` gives 45. -/
lemma cTruncToInt_pos45 : cTruncToInt 45 = 45 := by
  unfold cTruncToInt
  norm_num

/-- Every draw of `getRandomFloat(-45.0f, 45.0f)` is an integer in the
inclusive range [-45, 45], for every generator state. -/
lemma getRandomFloat_range (g : RNGType) :
    -45 ≤ (getRandomFloat (-45) 45 g).1 ∧ (getRandomFloat (-45) 45 g).1 ≤ 45 := by
  unfold getRandomFloat uniformIntDraw
  rw [cTruncToInt_neg45, cTruncToInt_pos45]
  have h91 : ((45 : ℤ) - -45 + 1).toNat = 91 := by decide
  rw [h91]
  have hlt : (mtNext g).1 % 91 < 91 := Nat.mod_lt _ (by norm_num)
  constructor <;> simp only [Int.ofNat_eq_coe] <;> omega

/-- C9: `getRandomFloat` draws from `boost::uniform_int<int>` and returns
an `int`; each of the three Euler angles that `update` hands to
`updatePoseOrientation` is an integer number of degrees in [-45, 45]. -/
theorem claim_C9_angles_integer_range (d : TrackerSyncDevice) :
    (-45 ≤ d.update.angles.1 ∧ d.update.angles.1 ≤ 45) ∧
    (-45 ≤ d.update.angles.2.1 ∧ d.update.angles.2.1 ≤ 45) ∧
    (-45 ≤ d.update.angles.2.2 ∧ d.update.angles.2.2 ≤ 45) ∧
    d.update.sent = updatePoseOrientation osvrPose3SetIdentity
      (d.update.angles.1 : ℝ) (d.update.angles.2.1 : ℝ)
      (d.update.angles.2.2 : ℝ) :=
  ⟨getRandomFloat_range d.rng, getRandomFloat_range _, getRandomFloat_range _, rfl⟩

/-- Device state after `k` update ticks. -/
noncomputable def runTicks (d : TrackerSyncDevice) : Nat → TrackerSyncDevice
  | 0 => d
  | n + 1 => (runTicks d n).update.device

/-- Pose sent on tick `k` (0-indexed) of a run starting from device state
`d`. -/
noncomputable def sentAtTick (d : TrackerSyncDevice) (k : Nat) : OSVR_PoseState :=
  (runTicks d k).update.sent

/-- Two runs that start with equal RNG states keep equal RNG states on
every tick. -/
lemma runTicks_rng_congr (d1 d2 : TrackerSyncDevice) (h : d1.rng = d2.rng) :
    ∀ k, (runTicks d1 k).rng = (runTicks d2 k).rng := by
  intro k
  induction k with
  | zero => exact h
  | succ n ih =>
      show (runTicks d1 n).update.device.rng = (runTicks d2 n).update.device.rng
      rw [(update_congr_of_rng_eq _ _ ih).1]

/-- C10: the `rng` member is default-constructed and never seeded, so the
sent pose sequence is fully deterministic: any two devices built by the
constructor, whatever their uninitialized pose contents, send identical
poses tick for tick. -/
theorem claim_C10_deterministic_run (p1 p2 : OSVR_PoseState) (k : Nat) :
    sentAtTick (mkTrackerSyncDevice p1).1 k =
      sentAtTick (mkTrackerSyncDevice p2).1 k := by
  have h : (mkTrackerSyncDevice p1).1.rng = (mkTrackerSyncDevice p2).1.rng := rfl
  unfold sentAtTick
  exact (update_congr_of_rng_eq _ _ (runTicks_rng_congr _ _ h k)).2

/-- Spec-side definition for C4: the Hamilton product of two quaternions. -/
def hamilton (a b : OSVR_Quaternion) : OSVR_Quaternion :=
  { x := a.w * b.x + a.x * b.w + a.y * b.z - a.z * b.y
    y := a.w * b.y - a.x * b.z + a.y * b.w + a.z * b.x
    z := a.w * b.z + a.x * b.y - a.y * b.x + a.z * b.w
    w := a.w * b.w - a.x * b.x - a.y * b.y - a.z * b.z }

/-- Degrees-to-radians conversion, as the spec words it. -/
noncomputable def degToRad (a : ℝ) : ℝ := a * (Real.pi / 180)

/-- Spec-side single-axis rotation quaternion about X, built from the half
angle. -/
noncomputable def axisQuatX (a : ℝ) : OSVR_Quaternion :=
  ⟨Real.sin (a / 2), 0, 0, Real.cos (a / 2)⟩

/-- Spec-side single-axis rotation quaternion about Y, built from the half
angle. -/
noncomputable def axisQuatY (a : ℝ) : OSVR_Quaternion :=
  ⟨0, Real.sin (a / 2), 0, Real.cos (a / 2)⟩

/-- Spec-side single-axis rotation quaternion about Z, built from the half
angle. -/
noncomputable def axisQuatZ (a : ℝ) : OSVR_Quaternion :=
  ⟨0, 0, Real.sin (a / 2), Real.cos (a / 2)⟩

/-- Spec-side definition for C4, following the claim's words: the Hamilton
product of the three single-axis quaternions built from the half-angles
(after degree-to-radian conversion) of roll (about X), pitch (about Y) and
yaw (about Z), composed in the conventional ZYX Euler order. -/
noncomputable def specQuatFromEulerZYX (pitch yaw roll : ℝ) : OSVR_Quaternion :=
  hamilton (axisQuatZ (degToRad yaw))
    (hamilton (axisQuatY (degToRad pitch)) (axisQuatX (degToRad roll)))

/-- C4: the combined expression in `updatePoseOrientation` implements the
standard half-angle product formula: the quaternion it writes equals the
ZYX Hamilton product of the three single-axis quaternions. -/
theorem claim_C4_zyx_hamilton_product (pose : OSVR_PoseState)
    (pitch yaw roll : ℝ) :
    (updatePoseOrientation pose pitch yaw roll).rotation =
      specQuatFromEulerZYX pitch yaw roll := by
  unfold updatePoseOrientation specQuatFromEulerZYX hamilton degToRad
  unfold axisQuatX axisQuatY axisQuatZ
  rw [OSVR_Quaternion.mk.injEq]
  refine ⟨?_, ?_, ?_, ?_⟩ <;> ring_nf
